import Mathlib

/-!
Shallow embedding of the trim-convert repository's orchestration core
(src/app.py and src/folder_utils.py), together with theorems settling the
frozen claims about it.

Modelling conventions:
* Python floats are idealised as exact rationals (`ℚ`); Python's decimal
  string formatting (`:.1f`, `:06.3f`) is modelled as round-half-even on the
  rational value, which is what CPython's formatting performs on the decimal
  value of the float.
* `str.strip()` is modelled by dropping whitespace characters from both
  ends of the character list.
* The filesystem, the `mkdtemp` result and the external subprocess are
  modelled as an explicit environment record; the orchestrator additionally
  returns a trace recording which side effects occurred (temporary directory
  creation, subprocess invocation).
-/

namespace TrimConvert

/-! ### Characters legal in an opaque Drive resource ID: `[a-zA-Z0-9-_]` -/

def idChar (c : Char) : Bool :=
  c.isAlpha || c.isDigit || c == '-' || c == '_'

/-- Model of Python `str.strip()` on the character list: drop whitespace
from both ends. -/
def stripChars (l : List Char) : List Char :=
  ((l.dropWhile Char.isWhitespace).reverse.dropWhile Char.isWhitespace).reverse

/-- Model of Python `str.strip()`. -/
def pyStrip (s : String) : String :=
  String.mk (stripChars s.data)

/-- Longest run of ID-legal characters at the head of the list (the greedy
match of `[a-zA-Z0-9-_]+` anchored at this position). -/
def takeIdRun : List Char → List Char
  | [] => []
  | c :: rest => if idChar c then c :: takeIdRun rest else []

/-- Model of `re.search(lit + "([a-zA-Z0-9-_]+)", s)`: find the leftmost
position where the literal `lit` occurs followed by at least one ID-legal
character, and return the maximal run of ID-legal characters after the
literal (the capture group). `none` when no position matches. -/
def searchPat (lit : List Char) : List Char → Option (List Char)
  | [] => none
  | c :: rest =>
    if lit.isPrefixOf (c :: rest) then
      let run := takeIdRun ((c :: rest).drop lit.length)
      if run.isEmpty then searchPat lit rest else some run
    else searchPat lit rest

/-- String-level wrapper of `searchPat`. -/
def searchPatStr (lit s : String) : Option String :=
  (searchPat lit.data s.data).map fun run => String.mk run

/-! ### `extract_drive_file_id` (src/app.py lines 75-95) -/

/-- The literal heads of the three file-link regexes in `app.py`. -/
def fileLinkPats : List String :=
  ["https://drive.google.com/file/d/",
   "https://drive.google.com/open?id=",
   "https://docs.google.com/file/d/"]

/-- Try the patterns in order, returning the first capture. -/
def firstPatMatch (pats : List String) (s : String) : Option String :=
  match pats with
  | [] => none
  | p :: rest =>
    match searchPatStr p s with
    | some run => some run
    | none => firstPatMatch rest s

/-- Embedding of `extract_drive_file_id`: try the three Drive link patterns
in order; otherwise accept the stripped input when it consists solely of
ID-legal characters (`re.match(r'^[a-zA-Z0-9-_]+$', input_str.strip())`,
which requires a nonempty all-legal string); otherwise `None`. -/
def extract_drive_file_id (input_str : String) : Option String :=
  match firstPatMatch fileLinkPats input_str with
  | some run => some run
  | none =>
    let t := pyStrip input_str
    if !t.data.isEmpty && t.data.all idChar then some t else none

/-! ### `extract_drive_folder_id` (src/folder_utils.py lines 6-35) -/

/-- The literal heads of the four folder-link regexes in `folder_utils.py`. -/
def folderLinkPats : List String :=
  ["https://drive.google.com/drive/folders/",
   "drive.google.com/drive/folders/",
   "/folders/",
   "folders/"]

/-- Embedding of `extract_drive_folder_id`: `None` on empty input; strip;
try the four folder link patterns in order; otherwise accept the stripped
input when it matches `^[a-zA-Z0-9-_]{25,}$` (at least 25 ID-legal
characters); otherwise `None`. -/
def extract_drive_folder_id (input_str : String) : Option String :=
  if input_str.data.isEmpty then none
  else
    let t := pyStrip input_str
    match firstPatMatch folderLinkPats t with
    | some run => some run
    | none =>
      if 25 ≤ t.length && t.data.all idChar then some t else none

/-! ### Numeric helpers for Python float formatting -/

/-- Python float modulo (`x % y`): `x - y * ⌊x / y⌋`.  For `y > 0` the
result lies in `[0, y)`. -/
def fmod (x y : ℚ) : ℚ :=
  x - y * ⌊x / y⌋

/-- Round-half-even to the nearest integer, which is the rounding CPython's
decimal formatting performs (on the idealised rational value). -/
def rne (x : ℚ) : ℤ :=
  if x - ⌊x⌋ < 1/2 then ⌊x⌋
  else if 1/2 < x - ⌊x⌋ then ⌊x⌋ + 1
  else if ⌊x⌋ % 2 = 0 then ⌊x⌋ else ⌊x⌋ + 1

/-- Left-pad a string with `c` up to length `n` (Python zero-padding of
numeric format fields, where the width counts every character). -/
def padLeft (c : Char) (n : Nat) (s : String) : String :=
  String.mk (List.replicate (n - s.data.length) c) ++ s

/-- Decimal digits of a natural number (model of `str`). -/
def natStr (n : Nat) : String :=
  String.mk (Nat.toDigits 10 n)

/-- Model of `str`/`format` on a Python int. -/
def intStr (z : ℤ) : String :=
  if z < 0 then "-" ++ natStr z.natAbs else natStr z.natAbs

/-- Model of Python `f"{z:02d}"`. -/
def fmt02d (z : ℤ) : String :=
  padLeft '0' 2 (intStr z)

/-- Model of Python `f"{q:06.3f}"` for `q ≥ 0`, given as the rounded count
`n = rne (q * 1000)` of milliseconds: digits of `n / 1000`, a dot, three
digits of `n % 1000`, zero-padded on the left to width 6. -/
def fmt06_3 (n : ℤ) : String :=
  padLeft '0' 6 (intStr (n / 1000) ++ "." ++ padLeft '0' 3 (intStr (n % 1000)))

/-- Model of Python `f"{q:.1f}"` for `q ≥ 0`: round-half-even to one
decimal. -/
def fmt_1f (q : ℚ) : String :=
  let n : ℤ := rne (q * 10)
  intStr (n / 10) ++ "." ++ intStr (n % 10)

/-! ### `seconds_to_time` (src/app.py lines 200-204)

    hours   = int(seconds // 3600)
    minutes = int((seconds % 3600) // 60)
    secs    = seconds % 60
    return f"{hours:02d}:{minutes:02d}:{secs:06.3f}"

`int(x // y)` on a float floor-division result is `⌊x / y⌋` (the inner
floor-division already floors, so the `int` truncation is the identity). -/

def st_hours (seconds : ℚ) : ℤ := ⌊seconds / 3600⌋

def st_minutes (seconds : ℚ) : ℤ := ⌊fmod seconds 3600 / 60⌋

/-- The milliseconds printed in the seconds field: `seconds % 60` rounded
half-even at three decimals (what `f"{secs:06.3f}"` prints). -/
def st_msecs (seconds : ℚ) : ℤ := rne (fmod seconds 60 * 1000)

/-- Embedding of `seconds_to_time` from `process_video_trim`. -/
def seconds_to_time (seconds : ℚ) : String :=
  fmt02d (st_hours seconds) ++ ":" ++ fmt02d (st_minutes seconds) ++ ":" ++
    fmt06_3 (st_msecs seconds)

/-! ### `format_time` (src/app.py lines 281-287)

    if seconds is None: return "0:00"
    minutes = int(seconds // 60)
    secs = int(seconds % 60)
    return f"{minutes}:{secs:02d}"

`seconds % 60` is nonnegative, so its `int` truncation is its floor. -/

def ft_minutes (seconds : ℚ) : ℤ := ⌊seconds / 60⌋

def ft_secs (seconds : ℚ) : ℤ := ⌊fmod seconds 60⌋

/-- Embedding of `format_time`. -/
def format_time : Option ℚ → String
  | none => "0:00"
  | some seconds => intStr (ft_minutes seconds) ++ ":" ++ fmt02d (ft_secs seconds)

/-! ### `get_video_duration` (src/app.py lines 254-279)

The external inspection tool (`ffprobe`) is modelled by an environment
record: the exit code of the invocation, and the outcome of
`float(json.loads(result.stdout)['format']['duration'])` — `none` when any
of those steps raises (malformed JSON, missing field, non-numeric value),
which the function's `except` clause turns into the return value `0`.
The whole body is wrapped in `try/except`, so the embedding is a total
function: no exception reaches the caller. -/

structure ProbeEnv where
  returncode : ℤ
  parsedDuration : Option ℚ

/-- Embedding of `get_video_duration`.  The input is `none` for Python
`None`; `if not video_file` also catches the empty string. -/
def get_video_duration (video_file : Option String) (env : ProbeEnv) : ℚ :=
  match video_file with
  | none => 0
  | some path =>
    if path.data.isEmpty then 0
    else if env.returncode = 0 then
      match env.parsedDuration with
      | some d => d
      | none => 0
    else 0

/-! ### `process_video_trim` (src/app.py lines 153-252) -/

/-- `os.path.basename`-like final path component (everything after the last
`'/'`). -/
def lastComponent (l : List Char) : List Char :=
  ((l.reverse).takeWhile (fun c => c ≠ '/')).reverse

/-- `pathlib.Path(p).stem`: the final component without its extension.
CPython computes `i = name.rfind('.')` and strips `name[i:]` exactly when
`0 < i < len(name) - 1`. -/
def stemChars (name : List Char) : List Char :=
  let i := (name.reverse.takeWhile (fun c => c ≠ '.')).length
  -- `name.length - 1 - i` is `rfind('.')` when a dot exists
  if i = name.length then name            -- no dot at all
  else
    let dotIdx := name.length - 1 - i
    if 0 < dotIdx ∧ dotIdx < name.length - 1 then name.take dotIdx else name

/-- Embedding of `Path(video_file).stem`. -/
def pathStem (p : String) : String :=
  String.mk (stemChars (lastComponent p.data))

/-- Captured result of `subprocess.run` (exit code and both streams,
captured in full). -/
structure SubprocessResult where
  returncode : ℤ
  stdout : String
  stderr : String

/-- Environment of one `process_video_trim` call: the filesystem as seen by
the `os.path.exists` checks made before the subprocess runs, the directory
returned by `tempfile.mkdtemp()` (no trailing slash, as `mkdtemp`
guarantees), the subprocess outcome, and the filesystem as seen by the
output-file checks made after the subprocess has run. -/
structure TrimEnv where
  fileExists : String → Bool
  tempDir : String
  run : SubprocessResult
  outExists : String → Bool

/-- The four components of the Python return value
`(output_video, output_audio, output_audio, message)`; failures return
`(None, None, None, error_msg)`. -/
structure TrimOutput where
  video : Option String
  audioPlayer : Option String
  audioDownload : Option String
  message : String
  deriving DecidableEq

/-- Trace of the side effects `process_video_trim` performed: whether
`tempfile.mkdtemp()` ran and whether the external script was invoked. -/
structure TrimTrace where
  tempDirCreated : Bool
  subprocessInvoked : Bool
  deriving DecidableEq

/-- Failure return value `(None, None, None, msg)`. -/
def trimFail (msg : String) : TrimOutput :=
  ⟨none, none, none, msg⟩

/-- The output prefix `os.path.join(temp_dir, f"{base_name}_trimmed")`. -/
def outputPrefixOf (env : TrimEnv) (video_file : String) : String :=
  env.tempDir ++ "/" ++ pathStem video_file ++ "_trimmed"

/-- Embedding of `process_video_trim`.

Inputs: `video_file` is `none` for Python `None`; `start_time`/`end_time`
are `none` for `None` and otherwise carry the (already numeric) slider
value, so the `float()` conversions succeed on the modelled domain.
Returns the Python 4-tuple together with the side-effect trace. -/
def process_video_trim (video_file : Option String)
    (start_time end_time : Option ℚ) (env : TrimEnv) :
    TrimOutput × TrimTrace :=
  match video_file, start_time, end_time with
  | some vf, some start_seconds, some end_seconds =>
    if vf.data.isEmpty then
      (trimFail "Please provide video file and both start/end times", ⟨false, false⟩)
    else if start_seconds ≥ end_seconds then
      (trimFail "Start time must be less than end time", ⟨false, false⟩)
    else if !env.fileExists vf then
      (trimFail ("Input video file not found: " ++ vf), ⟨false, false⟩)
    else
      -- temp_dir = tempfile.mkdtemp()
      let output_prefix := outputPrefixOf env vf
      let output_video := output_prefix ++ ".mp4"
      let output_audio := output_prefix ++ ".aac"
      if !env.fileExists "./trim-convert.sh" then
        (trimFail "trim-convert.sh script not found at: ./trim-convert.sh",
         ⟨true, false⟩)
      else
        let result := env.run
        if result.returncode = 0 then
          if env.outExists output_video && env.outExists output_audio then
            (⟨some output_video, some output_audio, some output_audio,
              "✅ Successfully trimmed video from " ++ fmt_1f start_seconds ++
                "s to " ++ fmt_1f end_seconds ++ "s"⟩,
             ⟨true, true⟩)
          else
            (trimFail ("❌ Output files not created.\n\nScript STDOUT:\n" ++
                result.stdout ++ "\n\nScript STDERR:\n" ++ result.stderr),
             ⟨true, true⟩)
        else
          (trimFail ("❌ trim-convert.sh failed with return code " ++
              intStr result.returncode ++ "\n\nSTDOUT:\n" ++ result.stdout ++
              "\n\nSTDERR:\n" ++ result.stderr),
           ⟨true, true⟩)
  | _, _, _ =>
    (trimFail "Please provide video file and both start/end times", ⟨false, false⟩)

/-! ### Helper lemmas -/

theorem fmod_nonneg (x : ℚ) {y : ℚ} (hy : 0 < y) : 0 ≤ fmod x y := by
  unfold fmod
  have h : (⌊x / y⌋ : ℚ) ≤ x / y := Int.floor_le _
  have h2 : y * (⌊x / y⌋ : ℚ) ≤ y * (x / y) :=
    mul_le_mul_of_nonneg_left h hy.le
  rw [mul_div_cancel₀ x hy.ne'] at h2
  linarith

theorem fmod_lt (x : ℚ) {y : ℚ} (hy : 0 < y) : fmod x y < y := by
  unfold fmod
  have h : x / y < (⌊x / y⌋ : ℚ) + 1 := Int.lt_floor_add_one _
  have h2 : y * (x / y) < y * ((⌊x / y⌋ : ℚ) + 1) :=
    (mul_lt_mul_left hy).mpr h
  rw [mul_div_cancel₀ x hy.ne'] at h2
  linarith

theorem le_rne (x : ℚ) : x - 1/2 ≤ (rne x : ℚ) := by
  unfold rne
  have h1 : (⌊x⌋ : ℚ) ≤ x := Int.floor_le x
  have h2 : x < (⌊x⌋ : ℚ) + 1 := Int.lt_floor_add_one x
  split_ifs with hc1 hc2 hc3 <;> push_cast <;> linarith

theorem rne_le (x : ℚ) : (rne x : ℚ) ≤ x + 1/2 := by
  unfold rne
  have h1 : (⌊x⌋ : ℚ) ≤ x := Int.floor_le x
  split_ifs with hc1 hc2 hc3 <;> push_cast <;> linarith

theorem rne_nonneg {x : ℚ} (h : 0 ≤ x) : 0 ≤ rne x := by
  unfold rne
  have h1 : 0 ≤ ⌊x⌋ := Int.floor_nonneg.mpr h
  split_ifs <;> omega

/-- `⌊q/60⌋` decomposes into the hour and minute fields computed by
`seconds_to_time`. -/
theorem hours_minutes_decomp (q : ℚ) :
    60 * st_hours q + st_minutes q = ⌊q / 60⌋ := by
  unfold st_hours st_minutes fmod
  have harg : (q - 3600 * (⌊q / 3600⌋ : ℚ)) / 60 =
      q / 60 - ((60 * ⌊q / 3600⌋ : ℤ) : ℚ) := by
    push_cast
    ring
  rw [harg, Int.floor_sub_int]
  omega

/-- Reconstructing seconds from the hour field, the minute field and
`seconds % 60` gives back the input exactly. -/
theorem st_reconstruct (q : ℚ) :
    (st_hours q : ℚ) * 3600 + (st_minutes q : ℚ) * 60 + fmod q 60 = q := by
  have h := hours_minutes_decomp q
  have hcast : ((60 * st_hours q + st_minutes q : ℤ) : ℚ) = ((⌊q / 60⌋ : ℤ) : ℚ) := by
    exact_mod_cast congrArg (fun z : ℤ => (z : ℚ)) h
  push_cast at hcast
  unfold fmod
  linarith

/-- The seconds field of `format_time` recovers `⌊q⌋` modulo the minute
field. -/
theorem ft_decomp (q : ℚ) : ft_minutes q * 60 + ft_secs q = ⌊q⌋ := by
  unfold ft_minutes ft_secs fmod
  have harg : q - 60 * (⌊q / 60⌋ : ℚ) = q - ((60 * ⌊q / 60⌋ : ℤ) : ℚ) := by
    push_cast
    ring
  rw [harg, Int.floor_sub_int]
  omega

/-- A two-character zero-padded rendering for integers in `[0, 99]`. -/
theorem fmt02d_length {z : ℤ} (h0 : 0 ≤ z) (h1 : z ≤ 99) :
    (fmt02d z).data.length = 2 := by
  interval_cases z <;> decide

/-- Middle part of a double append is an infix. -/
theorem infix_mid {α : Type} (p q r : List α) : q <:+: p ++ q ++ r :=
  ⟨p, r, rfl⟩

/-- An infix of `l` is an infix of `p ++ l`. -/
theorem infix_append_left_of {α : Type} {q l : List α} (h : q <:+: l)
    (p : List α) : q <:+: p ++ l := by
  obtain ⟨s, t, rfl⟩ := h
  exact ⟨p ++ s, t, by simp⟩

/-- A list is an infix of itself followed by anything. -/
theorem infix_self_append {α : Type} (q r : List α) : q <:+: q ++ r :=
  ⟨[], r, rfl⟩

/-- Nonempty strings have nonempty character lists. -/
theorem data_isEmpty_false_of_ne {v : String} (h : v ≠ "") :
    v.data.isEmpty = false := by
  cases v with
  | mk l =>
    cases l with
    | nil => exact absurd rfl h
    | cons c cs => rfl

/-! ### Claim theorems for the trim orchestrator -/

/-- Claim C3: a trim request whose start time is greater than or equal to its
end time is rejected with the distinct message "Start time must be less than
end time", with no temporary workspace created and no subprocess invoked. -/
theorem claim_c3_bad_range_rejected (vf : String) (s e : ℚ) (env : TrimEnv)
    (hvf : vf ≠ "") (hse : e ≤ s) :
    process_video_trim (some vf) (some s) (some e) env =
      (trimFail "Start time must be less than end time",
       ⟨false, false⟩) := by
  have h1 : vf.data.isEmpty = false := data_isEmpty_false_of_ne hvf
  simp [process_video_trim, h1, hse]

/-- Witness for C3 at a concrete input. -/
theorem claim_c3_witness :
    ("a.mp4" : String) ≠ "" ∧ (50 : ℚ) ≤ 50 ∧
    process_video_trim (some "a.mp4") (some 50) (some 50)
        { fileExists := fun _ => true, tempDir := "/tmp/w",
          run := ⟨0, "", ""⟩, outExists := fun _ => true } =
      (trimFail "Start time must be less than end time", ⟨false, false⟩) :=
  ⟨by decide, le_refl 50,
   claim_c3_bad_range_rejected "a.mp4" 50 50 _ (by decide) (le_refl 50)⟩

/-- Claim C4: a trim request whose source file does not exist (valid range,
nonempty path) fails with a message citing the missing input file, before
any temporary workspace is created and before any subprocess is invoked. -/
theorem claim_c4_missing_source_rejected (vf : String) (s e : ℚ)
    (env : TrimEnv) (hvf : vf ≠ "") (hlt : s < e)
    (hmiss : env.fileExists vf = false) :
    process_video_trim (some vf) (some s) (some e) env =
      (trimFail ("Input video file not found: " ++ vf), ⟨false, false⟩) := by
  have h1 : vf.data.isEmpty = false := data_isEmpty_false_of_ne hvf
  have hse : ¬ (s ≥ e) := not_le.mpr hlt
  simp [process_video_trim, h1, hse, hmiss]

/-- Witness for C4 at a concrete input. -/
theorem claim_c4_witness :
    ("gone.mp4" : String) ≠ "" ∧ (0 : ℚ) < 10 ∧
    process_video_trim (some "gone.mp4") (some 0) (some 10)
        { fileExists := fun _ => false, tempDir := "/tmp/w",
          run := ⟨0, "", ""⟩, outExists := fun _ => true } =
      (trimFail "Input video file not found: gone.mp4", ⟨false, false⟩) :=
  ⟨by decide, by norm_num,
   claim_c4_missing_source_rejected "gone.mp4" 0 10 _ (by decide)
     (by norm_num) rfl⟩

/-- Claim C9: when validation passes but the external trimming script is not
present at `./trim-convert.sh`, the orchestrator fails with a message
reporting that expected path, and no subprocess is invoked. -/
theorem claim_c9_missing_script_rejected (vf : String) (s e : ℚ)
    (env : TrimEnv) (hvf : vf ≠ "") (hlt : s < e)
    (hsrc : env.fileExists vf = true)
    (hnoscript : env.fileExists "./trim-convert.sh" = false) :
    process_video_trim (some vf) (some s) (some e) env =
      (trimFail "trim-convert.sh script not found at: ./trim-convert.sh",
       ⟨true, false⟩) := by
  have h1 : vf.data.isEmpty = false := data_isEmpty_false_of_ne hvf
  have hse : ¬ (s ≥ e) := not_le.mpr hlt
  simp [process_video_trim, h1, hse, hsrc, hnoscript]

/-- Witness for C9 at a concrete input. -/
theorem claim_c9_witness :
    ("a.mp4" : String) ≠ "" ∧ (0 : ℚ) < 10 ∧
    process_video_trim (some "a.mp4") (some 0) (some 10)
        { fileExists := fun p => p == "a.mp4", tempDir := "/tmp/w",
          run := ⟨0, "", ""⟩, outExists := fun _ => true } =
      (trimFail "trim-convert.sh script not found at: ./trim-convert.sh",
       ⟨true, false⟩) :=
  ⟨by decide, by norm_num,
   claim_c9_missing_script_rejected "a.mp4" 0 10 _ (by decide) (by norm_num)
     (by decide) (by decide)⟩

/-- Claim C2: when validation passes, the script is present, the subprocess
exits 0 and both expected outputs exist, the orchestrator succeeds with
video path `<temp_dir>/<stem>_trimmed.mp4`, audio path
`<temp_dir>/<stem>_trimmed.aac`, and a summary message echoing the requested
times formatted to one decimal place. -/
theorem claim_c2_success (vf : String) (s e : ℚ) (env : TrimEnv)
    (hvf : vf ≠ "") (hlt : s < e)
    (hsrc : env.fileExists vf = true)
    (hscript : env.fileExists "./trim-convert.sh" = true)
    (hrc : env.run.returncode = 0)
    (hov : env.outExists (outputPrefixOf env vf ++ ".mp4") = true)
    (hoa : env.outExists (outputPrefixOf env vf ++ ".aac") = true) :
    process_video_trim (some vf) (some s) (some e) env =
      (⟨some (outputPrefixOf env vf ++ ".mp4"),
        some (outputPrefixOf env vf ++ ".aac"),
        some (outputPrefixOf env vf ++ ".aac"),
        "✅ Successfully trimmed video from " ++ fmt_1f s ++ "s to " ++
          fmt_1f e ++ "s"⟩,
       ⟨true, true⟩) := by
  have h1 : vf.data.isEmpty = false := data_isEmpty_false_of_ne hvf
  have hse : ¬ (s ≥ e) := not_le.mpr hlt
  simp [process_video_trim, h1, hse, hsrc, hscript, hrc, hov, hoa]

unseal Rat.mul Rat.add Rat.sub Rat.inv in
/-- Witness for C2: start 0, end 100 produces a success whose message
contains "0.0s to 100.0s". -/
theorem claim_c2_witness :
    ("clip.mp4" : String) ≠ "" ∧ (0 : ℚ) < 100 ∧
    process_video_trim (some "clip.mp4") (some 0) (some 100)
        { fileExists := fun p => p == "clip.mp4" || p == "./trim-convert.sh",
          tempDir := "/tmp/w", run := ⟨0, "", ""⟩,
          outExists := fun p => p == "/tmp/w/clip_trimmed.mp4" ||
            p == "/tmp/w/clip_trimmed.aac" } =
      (⟨some "/tmp/w/clip_trimmed.mp4", some "/tmp/w/clip_trimmed.aac",
        some "/tmp/w/clip_trimmed.aac",
        "✅ Successfully trimmed video from 0.0s to 100.0s"⟩,
       ⟨true, true⟩) :=
  ⟨by decide, by norm_num, by
    have h := claim_c2_success "clip.mp4" 0 100
      { fileExists := fun p => p == "clip.mp4" || p == "./trim-convert.sh",
        tempDir := "/tmp/w", run := ⟨0, "", ""⟩,
        outExists := fun p => p == "/tmp/w/clip_trimmed.mp4" ||
          p == "/tmp/w/clip_trimmed.aac" }
      (by decide) (by norm_num) (by decide) (by decide) rfl (by decide)
      (by decide)
    rw [h]
    decide⟩

/-- Claim C1: once validation passes and the script exists, a nonzero exit
code — or a zero exit code with either expected output file missing — yields
a failure (all three output slots `None`) after the subprocess has been
invoked, whose message carries the captured stdout and stderr verbatim, and
the exit code as well when it is nonzero; a zero exit code alone never
produces a success. -/
theorem claim_c1_failure_diagnostics (vf : String) (s e : ℚ) (env : TrimEnv)
    (hvf : vf ≠ "") (hlt : s < e)
    (hsrc : env.fileExists vf = true)
    (hscript : env.fileExists "./trim-convert.sh" = true)
    (hfail : env.run.returncode ≠ 0 ∨
      env.outExists (outputPrefixOf env vf ++ ".mp4") = false ∨
      env.outExists (outputPrefixOf env vf ++ ".aac") = false) :
    (process_video_trim (some vf) (some s) (some e) env).1.video = none ∧
    (process_video_trim (some vf) (some s) (some e) env).1.audioPlayer = none ∧
    (process_video_trim (some vf) (some s) (some e) env).1.audioDownload = none ∧
    (process_video_trim (some vf) (some s) (some e) env).2.subprocessInvoked
      = true ∧
    env.run.stdout.data <:+:
      (process_video_trim (some vf) (some s) (some e) env).1.message.data ∧
    env.run.stderr.data <:+:
      (process_video_trim (some vf) (some s) (some e) env).1.message.data ∧
    (env.run.returncode ≠ 0 →
      (intStr env.run.returncode).data <:+:
        (process_video_trim (some vf) (some s) (some e) env).1.message.data) := by
  have h1 : vf.data.isEmpty = false := data_isEmpty_false_of_ne hvf
  have hse : ¬ (s ≥ e) := not_le.mpr hlt
  by_cases hrc : env.run.returncode = 0
  · have hmiss : (env.outExists (outputPrefixOf env vf ++ ".mp4") &&
        env.outExists (outputPrefixOf env vf ++ ".aac")) = false := by
      rcases hfail with h | h | h
      · exact absurd hrc h
      · simp [h]
      · simp [h]
    have heq : process_video_trim (some vf) (some s) (some e) env =
        (trimFail ("❌ Output files not created.\n\nScript STDOUT:\n" ++
            env.run.stdout ++ "\n\nScript STDERR:\n" ++ env.run.stderr),
         ⟨true, true⟩) := by
      simp [process_video_trim, h1, hse, hsrc, hscript, hrc, hmiss]
    rw [heq]
    refine ⟨rfl, rfl, rfl, rfl, ?_, ?_, fun hne => absurd hrc hne⟩
    · exact ⟨("❌ Output files not created.\n\nScript STDOUT:\n").data,
        ("\n\nScript STDERR:\n").data ++ env.run.stderr.data,
        by simp [trimFail, String.data_append]⟩
    · exact ⟨("❌ Output files not created.\n\nScript STDOUT:\n").data ++
        env.run.stdout.data ++ ("\n\nScript STDERR:\n").data, [],
        by simp [trimFail, String.data_append]⟩
  · have heq : process_video_trim (some vf) (some s) (some e) env =
        (trimFail ("❌ trim-convert.sh failed with return code " ++
            intStr env.run.returncode ++ "\n\nSTDOUT:\n" ++ env.run.stdout ++
            "\n\nSTDERR:\n" ++ env.run.stderr),
         ⟨true, true⟩) := by
      simp [process_video_trim, h1, hse, hsrc, hscript, hrc]
    rw [heq]
    refine ⟨rfl, rfl, rfl, rfl, ?_, ?_, fun _ => ?_⟩
    · exact ⟨("❌ trim-convert.sh failed with return code ").data ++
        (intStr env.run.returncode).data ++ ("\n\nSTDOUT:\n").data,
        ("\n\nSTDERR:\n").data ++ env.run.stderr.data,
        by simp [trimFail, String.data_append]⟩
    · exact ⟨("❌ trim-convert.sh failed with return code ").data ++
        (intStr env.run.returncode).data ++ ("\n\nSTDOUT:\n").data ++
        env.run.stdout.data ++ ("\n\nSTDERR:\n").data, [],
        by simp [trimFail, String.data_append]⟩
    · exact ⟨("❌ trim-convert.sh failed with return code ").data,
        ("\n\nSTDOUT:\n").data ++ env.run.stdout.data ++
          ("\n\nSTDERR:\n").data ++ env.run.stderr.data,
        by simp [trimFail, String.data_append]⟩

/-- Environment for the C1 witness: subprocess exits 0, the trimmed video
exists on disk afterwards, but the extracted audio file does not. -/
def c1WitnessEnv : TrimEnv :=
  { fileExists := fun p => p == "clip.mp4" || p == "./trim-convert.sh",
    tempDir := "/tmp/w", run := ⟨0, "tool stdout", "tool stderr"⟩,
    outExists := fun p => p == "/tmp/w/clip_trimmed.mp4" }

/-- Witness for C1: the subprocess exits 0 but the audio file is missing;
the result is a failure carrying both captured streams. -/
theorem claim_c1_witness :
    ("clip.mp4" : String) ≠ "" ∧ (0 : ℚ) < 10 ∧
    c1WitnessEnv.fileExists "clip.mp4" = true ∧
    c1WitnessEnv.fileExists "./trim-convert.sh" = true ∧
    (c1WitnessEnv.run.returncode ≠ 0 ∨
      c1WitnessEnv.outExists (outputPrefixOf c1WitnessEnv "clip.mp4" ++ ".mp4")
        = false ∨
      c1WitnessEnv.outExists (outputPrefixOf c1WitnessEnv "clip.mp4" ++ ".aac")
        = false) ∧
    (process_video_trim (some "clip.mp4") (some 0) (some 10)
        c1WitnessEnv).1.video = none ∧
    (process_video_trim (some "clip.mp4") (some 0) (some 10)
        c1WitnessEnv).1.audioDownload = none ∧
    c1WitnessEnv.run.stdout.data <:+:
      (process_video_trim (some "clip.mp4") (some 0) (some 10)
        c1WitnessEnv).1.message.data ∧
    c1WitnessEnv.run.stderr.data <:+:
      (process_video_trim (some "clip.mp4") (some 0) (some 10)
        c1WitnessEnv).1.message.data := by
  have h := claim_c1_failure_diagnostics "clip.mp4" 0 10 c1WitnessEnv
    (by decide) (by norm_num) (by decide) (by decide)
    (Or.inr (Or.inr (by decide)))
  exact ⟨by decide, by norm_num, by decide, by decide,
    Or.inr (Or.inr (by decide)), h.1, h.2.2.1, h.2.2.2.2.1, h.2.2.2.2.2.1⟩

/-! ### Claim theorems for the time formatters -/

unseal Rat.mul Rat.add Rat.sub Rat.inv in
/-- Counterexample to C5: at 59.9999 seconds the code formats the seconds
field as `60.000` — the output `"00:00:60.000"` has its SS field outside
`[00,59]`, which the claim asserts never happens. -/
theorem claim_c5_counterexample :
    seconds_to_time (599999/10000) = "00:00:60.000" := by
  decide

/-- Claim C5 (amended): for `0 ≤ seconds < 360000` the output of
`seconds_to_time` is `HH:MM:SS.mmm` with `HH` two digits in `[00,99]`, `MM`
two digits in `[00,59]`, and the seconds field the value `seconds % 60`
rounded half-even to three decimals — which lies in `[0, 60.000]` and
reaches `60.000` only when `seconds % 60` is within `0.0005` of `60`;
reconstructing total seconds from the three fields reproduces the input
within `0.001`. -/
theorem claim_c5_amended_fields (q : ℚ) (h0 : 0 ≤ q) (h1 : q < 360000) :
    seconds_to_time q =
      fmt02d (st_hours q) ++ ":" ++ fmt02d (st_minutes q) ++ ":" ++
        fmt06_3 (st_msecs q) ∧
    0 ≤ st_hours q ∧ st_hours q ≤ 99 ∧
    (fmt02d (st_hours q)).data.length = 2 ∧
    0 ≤ st_minutes q ∧ st_minutes q ≤ 59 ∧
    (fmt02d (st_minutes q)).data.length = 2 ∧
    0 ≤ st_msecs q ∧ st_msecs q ≤ 60000 ∧
    (st_msecs q = 60000 → 60 - 1/2000 ≤ fmod q 60) ∧
    |((st_hours q : ℚ) * 3600 + (st_minutes q : ℚ) * 60 +
        (st_msecs q : ℚ) / 1000) - q| ≤ 1/1000 := by
  have h3600 : (0:ℚ) < 3600 := by norm_num
  have h60 : (0:ℚ) < 60 := by norm_num
  have hh0 : 0 ≤ st_hours q := Int.floor_nonneg.mpr (div_nonneg h0 h3600.le)
  have hh99 : st_hours q ≤ 99 := by
    have : st_hours q < 100 := by
      apply Int.floor_lt.mpr
      push_cast
      rw [div_lt_iff₀ h3600]
      linarith
    omega
  have hm0 : 0 ≤ st_minutes q :=
    Int.floor_nonneg.mpr (div_nonneg (fmod_nonneg q h3600) h60.le)
  have hm59 : st_minutes q ≤ 59 := by
    have hlt : fmod q 3600 < 3600 := fmod_lt q h3600
    have : st_minutes q < 60 := by
      apply Int.floor_lt.mpr
      push_cast
      rw [div_lt_iff₀ h60]
      linarith
    omega
  have hx0 : 0 ≤ fmod q 60 := fmod_nonneg q h60
  have hx1 : fmod q 60 < 60 := fmod_lt q h60
  have hms0 : 0 ≤ st_msecs q :=
    rne_nonneg (by positivity)
  have hle : (st_msecs q : ℚ) ≤ fmod q 60 * 1000 + 1/2 := rne_le _
  have hge : fmod q 60 * 1000 - 1/2 ≤ (st_msecs q : ℚ) := le_rne _
  have hms1 : st_msecs q ≤ 60000 := by
    have h2 : (st_msecs q : ℚ) < 60001 := by linarith
    exact_mod_cast Int.lt_add_one_iff.mp (by exact_mod_cast h2)
  have hbound : st_msecs q = 60000 → 60 - 1/2000 ≤ fmod q 60 := by
    intro h
    rw [h] at hle
    push_cast at hle
    linarith
  have hrec : |((st_hours q : ℚ) * 3600 + (st_minutes q : ℚ) * 60 +
      (st_msecs q : ℚ) / 1000) - q| ≤ 1/1000 := by
    have hid := st_reconstruct q
    rw [abs_le]
    constructor <;> nlinarith
  exact ⟨rfl, hh0, hh99, fmt02d_length hh0 hh99, hm0, hm59,
    fmt02d_length hm0 (by omega), hms0, hms1, hbound, hrec⟩

unseal Rat.mul Rat.add Rat.sub Rat.inv in
/-- Witness for the amended C5, at 2.5 seconds. -/
theorem claim_c5_witness :
    (0 : ℚ) ≤ 5/2 ∧ (5/2 : ℚ) < 360000 ∧
    seconds_to_time (5/2) = "00:00:02.500" := by
  refine ⟨by norm_num, by norm_num, ?_⟩
  have h := claim_c5_amended_fields (5/2) (by norm_num) (by norm_num)
  rw [h.1]
  decide

/-- Claim C6: `format_time` on a nonnegative number of seconds renders
`M:SS` — minutes unbounded (unpadded), seconds zero-padded to two digits in
`[00,59]` — such that `minutes * 60 + secs` recovers `⌊seconds⌋` (the
whole-minute and whole-second values); `None` maps to `"0:00"`. -/
theorem claim_c6_format_time (q : ℚ) (h0 : 0 ≤ q) :
    format_time (some q) =
      intStr (ft_minutes q) ++ ":" ++ fmt02d (ft_secs q) ∧
    0 ≤ ft_minutes q ∧
    0 ≤ ft_secs q ∧ ft_secs q ≤ 59 ∧
    (fmt02d (ft_secs q)).data.length = 2 ∧
    ft_minutes q * 60 + ft_secs q = ⌊q⌋ ∧
    ft_minutes q = ⌊q / 60⌋ ∧
    format_time none = "0:00" := by
  have h60 : (0:ℚ) < 60 := by norm_num
  have hm0 : 0 ≤ ft_minutes q := Int.floor_nonneg.mpr (div_nonneg h0 h60.le)
  have hs0 : 0 ≤ ft_secs q := Int.floor_nonneg.mpr (fmod_nonneg q h60)
  have hs59 : ft_secs q ≤ 59 := by
    have : ft_secs q < 60 := by
      apply Int.floor_lt.mpr
      push_cast
      exact fmod_lt q h60
    omega
  exact ⟨rfl, hm0, hs0, hs59, fmt02d_length hs0 (by omega), ft_decomp q,
    rfl, rfl⟩

unseal Rat.mul Rat.add Rat.sub Rat.inv in
/-- Witness for C6 at 125 seconds (2 minutes 5 seconds). -/
theorem claim_c6_witness :
    (0 : ℚ) ≤ 125 ∧ format_time (some 125) = "2:05" ∧
    format_time none = "0:00" := by
  have h := claim_c6_format_time 125 (by norm_num)
  refine ⟨by norm_num, ?_, h.2.2.2.2.2.2.2⟩
  rw [h.1]
  decide

/-- Claim C7: the media probe returns the parsed duration when the
inspection tool exits 0 and its output parses; it returns 0 when the path
is absent or empty, when the tool exits nonzero, or when the output fails
to parse.  The embedding is a total function — matching the source, whose
whole body is inside `try/except`, so no exception reaches the caller. -/
theorem claim_c7_probe (path : String) (env : ProbeEnv) (d : ℚ) :
    (get_video_duration none env = 0) ∧
    (get_video_duration (some "") env = 0) ∧
    (path ≠ "" → env.returncode = 0 → env.parsedDuration = some d →
      get_video_duration (some path) env = d) ∧
    (env.returncode ≠ 0 → get_video_duration (some path) env = 0) ∧
    (env.parsedDuration = none → get_video_duration (some path) env = 0) := by
  refine ⟨rfl, rfl, ?_, ?_, ?_⟩
  · intro hne hrc hparse
    have he : path.data.isEmpty = false := data_isEmpty_false_of_ne hne
    simp [get_video_duration, he, hrc, hparse]
  · intro hrc
    by_cases he : path.data.isEmpty = true <;>
      simp [get_video_duration, he, hrc]
  · intro hparse
    by_cases he : path.data.isEmpty = true <;>
      by_cases hrc : env.returncode = 0 <;>
        simp [get_video_duration, he, hrc, hparse]

/-- Witness for C7 across its branches. -/
theorem claim_c7_witness :
    get_video_duration none ⟨0, some 42⟩ = 0 ∧
    get_video_duration (some "") ⟨0, some 42⟩ = 0 ∧
    get_video_duration (some "a.mp4") ⟨0, some 42⟩ = 42 ∧
    get_video_duration (some "a.mp4") ⟨1, some 42⟩ = 0 ∧
    get_video_duration (some "a.mp4") ⟨0, none⟩ = 0 :=
  ⟨(claim_c7_probe "a.mp4" ⟨0, some 42⟩ 42).1,
   (claim_c7_probe "a.mp4" ⟨0, some 42⟩ 42).2.1,
   (claim_c7_probe "a.mp4" ⟨0, some 42⟩ 42).2.2.1 (by decide) rfl rfl,
   (claim_c7_probe "a.mp4" ⟨1, some 42⟩ 42).2.2.2.1 (by decide),
   (claim_c7_probe "a.mp4" ⟨0, none⟩ 42).2.2.2.2 rfl⟩

/-! ### Lemmas about the share-link pattern search -/

/-- Rebuilding a string from its characters is the identity. -/
theorem mk_data (s : String) : String.mk s.data = s := by
  cases s
  rfl

/-- `takeIdRun` passes over a block of ID-legal characters. -/
theorem takeIdRun_append (xs ys : List Char) (h : xs.all idChar = true) :
    takeIdRun (xs ++ ys) = xs ++ takeIdRun ys := by
  induction xs with
  | nil => rfl
  | cons c cs ih =>
    simp only [List.all_cons, Bool.and_eq_true] at h
    simp [takeIdRun, h.1, ih h.2]

/-- A list is `isPrefixOf` itself followed by anything. -/
theorem isPrefixOf_append_self (l r : List Char) :
    l.isPrefixOf (l ++ r) = true := by
  induction l with
  | nil => simp [List.isPrefixOf]
  | cons c cs ih => simp [List.isPrefixOf, ih]

/-- When the literal occurs at the head of the input and is followed by at
least one ID-legal character, the search returns the run after it. -/
theorem searchPat_of_head (lit s : List Char)
    (hp : lit.isPrefixOf s = true)
    (hrun : takeIdRun (s.drop lit.length) ≠ []) :
    searchPat lit s = some (takeIdRun (s.drop lit.length)) := by
  cases s with
  | nil =>
    exact absurd (by rw [List.drop_nil]; rfl) hrun
  | cons c rest =>
    rw [searchPat, if_pos hp, if_neg]
    simp [hrun]

/-- The first file-link pattern captures the ID embedded in a
`https://drive.google.com/file/d/<id>...` link. -/
theorem firstPatMatch_file_link (id suffix : String)
    (hid : id.data ≠ []) (hall : id.data.all idChar = true)
    (hsuf : takeIdRun suffix.data = []) :
    firstPatMatch fileLinkPats
      ("https://drive.google.com/file/d/" ++ id ++ suffix) = some id := by
  have hdata : ("https://drive.google.com/file/d/" ++ id ++ suffix).data =
      ("https://drive.google.com/file/d/" : String).data ++
        (id.data ++ suffix.data) := by
    simp [String.data_append]
  have hp : ("https://drive.google.com/file/d/" : String).data.isPrefixOf
      (("https://drive.google.com/file/d/" : String).data ++
        (id.data ++ suffix.data)) = true :=
    isPrefixOf_append_self _ _
  have hdrop : (("https://drive.google.com/file/d/" : String).data ++
      (id.data ++ suffix.data)).drop
        ("https://drive.google.com/file/d/" : String).data.length =
      id.data ++ suffix.data := List.drop_left _ _
  have hrun : takeIdRun (id.data ++ suffix.data) = id.data := by
    rw [takeIdRun_append _ _ hall, hsuf, List.append_nil]
  have hsearch : searchPatStr "https://drive.google.com/file/d/"
      ("https://drive.google.com/file/d/" ++ id ++ suffix) = some id := by
    rw [searchPatStr, hdata,
      searchPat_of_head _ _ hp (by rw [hdrop, hrun]; exact hid), hdrop, hrun]
    simp [mk_data]
  simp only [fileLinkPats, firstPatMatch, hsearch]

/-- Claim C8 (amended): `extract_drive_file_id` extracts the embedded ID
from recognized file-view share links — which in this code are
`drive.google.com/file/d/...`, `drive.google.com/open?id=...` and
`docs.google.com/file/d/...` links, not arbitrary domains; when no pattern
matches, the stripped input is accepted verbatim exactly when it is
nonempty and composed solely of ID-legal characters, and `None` is returned
otherwise. -/
theorem claim_c8_amended (id suffix s : String)
    (hid : id.data ≠ []) (hall : id.data.all idChar = true)
    (hsuf : takeIdRun suffix.data = []) :
    extract_drive_file_id ("https://drive.google.com/file/d/" ++ id ++ suffix)
      = some id ∧
    (firstPatMatch fileLinkPats s = none →
      (pyStrip s).data.all idChar = false → extract_drive_file_id s = none) ∧
    (firstPatMatch fileLinkPats s = none → (pyStrip s).data ≠ [] →
      (pyStrip s).data.all idChar = true →
      extract_drive_file_id s = some (pyStrip s)) := by
  refine ⟨?_, ?_, ?_⟩
  · rw [extract_drive_file_id, firstPatMatch_file_link id suffix hid hall hsuf]
  · intro hpat hbad
    rw [extract_drive_file_id, hpat]
    simp [hbad]
  · intro hpat hne hok
    rw [extract_drive_file_id, hpat]
    simp [hok, List.isEmpty_iff, hne]

/-- Witness for the amended C8: a real Drive file link resolves to its ID;
"not a valid @@@ id" matches no pattern and fails the verbatim check. -/
theorem claim_c8_witness :
    ("ABC123" : String).data ≠ [] ∧
    ("ABC123" : String).data.all idChar = true ∧
    takeIdRun ("/view" : String).data = [] ∧
    extract_drive_file_id "https://drive.google.com/file/d/ABC123/view"
      = some "ABC123" ∧
    firstPatMatch fileLinkPats "not a valid @@@ id" = none ∧
    (pyStrip "not a valid @@@ id").data.all idChar = false ∧
    extract_drive_file_id "not a valid @@@ id" = none := by
  have h := claim_c8_amended "ABC123" "/view" "not a valid @@@ id"
    (by decide) (by decide) (by decide)
  refine ⟨by decide, by decide, by decide, ?_, by decide, by decide,
    h.2.1 (by decide) (by decide)⟩
  have h2 := h.1
  rw [show ("https://drive.google.com/file/d/" ++ "ABC123" ++ "/view" : String)
      = "https://drive.google.com/file/d/ABC123/view" from by decide] at h2
  exact h2

/-- Claim C8 as frozen is false on the code: the claim's example link uses
the domain `drive.example.com`, which matches none of the code's patterns
and contains characters illegal in an opaque ID, so the code returns `None`
rather than `"ABC123"`. -/
theorem claim_c8_counterexample :
    extract_drive_file_id "https://drive.example.com/file/d/ABC123/view"
      = none := by
  decide

/-- Claim C10: a string that matches no folder-link pattern is accepted
verbatim (stripped) as a folder ID exactly when it has at least 25
characters, all ID-legal; any shorter pattern-free string yields `None` —
whereas `extract_drive_file_id` accepts pattern-free all-legal strings of
any positive length. -/
theorem claim_c10_folder_min_length (s : String)
    (hpat : firstPatMatch folderLinkPats (pyStrip s) = none) :
    ((pyStrip s).length < 25 → extract_drive_folder_id s = none) ∧
    (25 ≤ (pyStrip s).length → (pyStrip s).data.all idChar = true →
      extract_drive_folder_id s = some (pyStrip s)) ∧
    ((pyStrip s).data.all idChar = false →
      extract_drive_folder_id s = none) ∧
    (firstPatMatch fileLinkPats s = none → (pyStrip s).data ≠ [] →
      (pyStrip s).data.all idChar = true →
      extract_drive_file_id s = some (pyStrip s)) := by
  refine ⟨?_, ?_, ?_, ?_⟩
  · intro hshort
    by_cases he : s.data.isEmpty = true
    · simp [extract_drive_folder_id, he]
    · rw [extract_drive_folder_id, if_neg he]
      simp [hpat, Nat.not_le.mpr hshort]
  · intro hlen hok
    have he : ¬ (s.data.isEmpty = true) := by
      intro hb
      have hnil : s.data = [] := List.isEmpty_iff.mp hb
      rw [show pyStrip s = "" from by simp [pyStrip, stripChars, hnil]] at hlen
      simp [String.length] at hlen
    rw [extract_drive_folder_id, if_neg he]
    simp [hpat, hlen, hok]
  · intro hbad
    by_cases he : s.data.isEmpty = true
    · simp [extract_drive_folder_id, he]
    · rw [extract_drive_folder_id, if_neg he]
      simp [hpat, hbad]
  · intro hfpat hne hok
    rw [extract_drive_file_id, hfpat]
    simp [hok, List.isEmpty_iff, hne]

/-- Witness for C10: a 6-character pattern-free ID is rejected by the
folder resolver but accepted by the file resolver; a 25-character one is
accepted by the folder resolver. -/
theorem claim_c10_witness :
    firstPatMatch folderLinkPats (pyStrip "abc123") = none ∧
    (pyStrip "abc123").length < 25 ∧
    extract_drive_folder_id "abc123" = none ∧
    25 ≤ (pyStrip "ABCDEFGHIJKLMNOPQRSTUVWXY").length ∧
    extract_drive_folder_id "ABCDEFGHIJKLMNOPQRSTUVWXY"
      = some "ABCDEFGHIJKLMNOPQRSTUVWXY" ∧
    extract_drive_file_id "abc123" = some "abc123" := by
  have hshort := claim_c10_folder_min_length "abc123" (by decide)
  have hlong := claim_c10_folder_min_length "ABCDEFGHIJKLMNOPQRSTUVWXY"
    (by decide)
  refine ⟨by decide, by decide, hshort.1 (by decide), by decide, ?_, ?_⟩
  · exact (hlong.2.1 (by decide) (by decide)).trans (by decide)
  · exact (hshort.2.2.2 (by decide) (by decide) (by decide)).trans (by decide)

/-! ### Sanity checks of the embedding on concrete inputs -/

unseal Rat.mul Rat.add Rat.sub Rat.inv in
/-- Sanity: 3690 seconds formats as one hour, one minute, thirty seconds. -/
theorem sanity_seconds_to_time_3690 :
    seconds_to_time 3690 = "01:01:30.000" := by decide

unseal Rat.mul Rat.add Rat.sub Rat.inv in
/-- Sanity: the one-decimal formatter used in the success message. -/
theorem sanity_fmt_1f :
    fmt_1f 0 = "0.0" ∧ fmt_1f 100 = "100.0" := by decide

/-- Sanity: `pathStem` behaves like `pathlib.Path(...).stem`. -/
theorem sanity_pathStem :
    pathStem "/videos/clip.mp4" = "clip" ∧
    pathStem "/a/b.tar.gz" = "b.tar" ∧
    pathStem "/a/.bashrc" = ".bashrc" ∧
    pathStem "noext" = "noext" := by decide

/-- Sanity: a folder share link resolves to the embedded folder ID, and a
bare 32-character string is accepted as a folder ID verbatim. -/
theorem sanity_folder_links :
    extract_drive_folder_id
      "https://drive.google.com/drive/folders/XYZ_9?usp=share"
      = some "XYZ_9" ∧
    extract_drive_folder_id "1BxiMVs0XRA5nFMdKvBdBZjgmUUqptlb"
      = some "1BxiMVs0XRA5nFMdKvBdBZjgmUUqptlb" := by decide

end TrimConvert
